import Mathlib

/-!
Verification of `process_management.py` (OS process-management lab).

The Python program drives OS primitives (`os.fork`, `os.execvp`, `os.wait`,
`os.waitpid`, `os.nice`, `os._exit`, `time.sleep`) and reads `/proc`.  We
embed each task function shallowly as the trace of observable events its
parent branch and its child branches perform, parameterised by the kernel
oracle (the pid returned by each fork, the pid returned by each any-child
wait, the inherited niceness).  Time is idealised: `sleepE d` advances the
clock by `d` seconds and every other event is instantaneous, which is the
timing discipline the demo scripts themselves rely on.

`task4_inspect_proc` is pure given a snapshot of the `/proc` filesystem, so
it is embedded directly as a function from that snapshot to its output.
-/

namespace ProcessManagement

/-- Observable events issued by one OS process in this program.
`waitpidE p s` is `os.waitpid(p, 0)` returning `(p, s)`; `waitE p s` is
`os.wait()` returning `(p, s)`; `execE prog argv` is a *successful*
`os.execvp` (the image is replaced, so it is necessarily the last event);
`niceE inc ret` is `os.nice(inc)` returning `ret`; `cpuE` marks one run of
`cpu_bound_task`; `printPpidE p s` is a print whose text reports the parent
pid `p` as obtained from `os.getppid()`; `excE exc` is the execution dying
from the uncaught Python exception `exc` — the interpreter prints a
traceback and exits with status 1, without any explicit `os._exit` call. -/
inductive Event where
  | printE (s : String)
  | printPpidE (ppid : Nat) (s : String)
  | sleepE (secs : Nat)
  | forkE (childPid : Nat)
  | waitpidE (pid : Nat) (status : Nat)
  | waitE (pid : Nat) (status : Nat)
  | exitE (code : Nat)
  | execE (prog : String) (argv : List String)
  | excE (exc : String)
  | niceE (inc : Int) (ret : Int)
  | cpuE
  deriving Repr, DecidableEq

/-- The raw wait status Python reports for a child that exited normally
with `code`: the code is placed in the high byte. -/
def waitStatusOfExit (code : Nat) : Nat := code * 256

/-- Seconds an event takes in the idealised timing model: a sleep lasts its
nominal duration, everything else is instantaneous. -/
def Event.duration : Event → Nat
  | .sleepE s => s
  | _ => 0

/-- Stamp each event of a trace with the time at which it is issued,
starting from time `t`. -/
def stampFrom (t : Nat) : List Event → List (Nat × Event)
  | [] => []
  | e :: es => (t, e) :: stampFrom (t + e.duration) es

/-- Timestamps of a trace starting at time 0. -/
def stamps (es : List Event) : List (Nat × Event) := stampFrom 0 es

/-- Is the event a reaping call (`os.wait` or `os.waitpid`)? -/
def Event.isWait : Event → Bool
  | .waitE _ _ => true
  | .waitpidE _ _ => true
  | _ => false

/-- Is the event a fork? -/
def Event.isFork : Event → Bool
  | .forkE _ => true
  | _ => false

/-- Number of reaping calls in a trace. -/
def waitCount (t : List Event) : Nat := (t.filter Event.isWait).length

/-- Number of forks in a trace. -/
def forkCount (t : List Event) : Nat := (t.filter Event.isFork).length

/-- The pids of the forks of a trace, in program order. -/
def forkPids (t : List Event) : List Nat :=
  t.filterMap fun e => match e with | .forkE p => some p | _ => none

/-- The `(pid, status)` pairs returned by the specific waits
(`os.waitpid`) of a trace, in program order. -/
def waitpidReports (t : List Event) : List (Nat × Nat) :=
  t.filterMap fun e => match e with | .waitpidE p s => some (p, s) | _ => none

/-! ## Task 1: `task1_create_processes(n)`

The parent forks `n` times; iteration `i` of the first loop receives pid
`fresh i` from the kernel, prints it and appends it to `child_pids`.  The
second loop calls `os.waitpid(child_pid, 0)` on each recorded pid in order.
Child `i` sleeps `i + 1` seconds, prints its identity and exits with 0. -/

/-- The `child_pids` list the parent accumulates: iteration `i` appends the
pid returned by its fork before the next iteration forks again. -/
def task1_childPids (fresh : Nat → Nat) (n : Nat) : List Nat :=
  (List.range n).map fresh

/-- Trace of the child created at iteration `i` of `task1_create_processes`. -/
def task1_childTrace (i myPid ppid : Nat) : List Event :=
  [ .sleepE (i + 1),
    .printPpidE ppid s!"  -> Child-{i + 1}: My PID is {myPid}, My Parent PID is {ppid}.",
    .exitE 0 ]

/-- Parent-side trace of `task1_create_processes n`: header prints, then the
fork loop, then the waitpid loop over the recorded pids.  Every child exits
with code 0, so each `os.waitpid` reports status `waitStatusOfExit 0`. -/
def task1_parentTrace (fresh : Nat → Nat) (myPid n : Nat) : List Event :=
  [ Event.printE s!"--- Running Task 1: Creating {n} Child Processes ---",
    Event.printE s!"Parent Process PID: {myPid}" ]
  ++ ((List.range n).map fun i =>
        [Event.forkE (fresh i),
         Event.printE s!"Parent: Created child with PID: {fresh i}"]).flatten
  ++ ((task1_childPids fresh n).map fun p =>
        [Event.waitpidE p (waitStatusOfExit 0),
         Event.printE s!"Parent: Child {p} has finished with status 0."]).flatten
  ++ [ Event.printE "Parent: All children have completed." ]

/-! ## Task 2: `task2_execute_commands(commands)`

Per command string the parent forks one child and immediately calls
`os.wait()` before the next command (serialized).  The child prints, splits
the command and calls `os.execvp` inside a `try` whose only handler is
`except FileNotFoundError`.  That gives three outcomes: the exec succeeds
(the image is replaced, nothing after the call runs); resolution fails with
`FileNotFoundError`, caught by the `except`, which prints an error and
calls `os._exit(1)`; or the `try` body raises any *other* exception —
e.g. `PermissionError` from `os.execvp` on a resolved but non-executable
target, or `IndexError` from `cmd_args[0]` when the command string is
empty — which no handler catches, so it propagates out of the child's
copy of `main` and the child interpreter dies printing a traceback, with
exit status 1, never executing any further loop iteration. -/

/-- Outcome of the `try` body of the task-2 child, as the source's
`except FileNotFoundError` partitions it: success, the caught resolution
failure, or any other exception `exc`, which the handler does not catch. -/
inductive ExecOutcome where
  | success
  | notFound
  | uncaught (exc : String)
  deriving Repr, DecidableEq

/-- Exit code of the task-2 child as far as the parent can observe it: on
`notFound` the child exits with the sentinel 1; on an uncaught exception
the interpreter exits with status 1 (its fixed status for dying on an
uncaught exception); on success the replaced image eventually exits with
whatever code that program returns (`execExit`, part of the kernel
oracle). -/
def task2_childExitCode (out : ExecOutcome) (execExit : Nat) : Nat :=
  match out with
  | .success => execExit
  | .notFound => 1
  | .uncaught _ => 1

/-- Trace of the task-2 child for command `cmd`: print, then either a
successful image replacement (last event, nothing after it), or the caught
resolution failure followed by `os._exit(1)`, or death by the uncaught
exception `exc` (no handler, no explicit exit, no further event). -/
def task2_childTrace (myPid : Nat) (cmd : String) (out : ExecOutcome) : List Event :=
  Event.printE s!"Child {myPid}: Executing {cmd}..." ::
  (match out with
   | .success => [ Event.execE ((cmd.splitOn " ").headD "") (cmd.splitOn " ") ]
   | .notFound => [ Event.printE s!"Error: Command not found {cmd}",
                    Event.exitE 1 ]
   | .uncaught exc => [ Event.excE exc ])

/-- Parent-side trace of `task2_execute_commands`: for the `i`-th command
the parent forks (pid `fresh i`) and its `os.wait()` reaps that one child —
it is the only outstanding child, and its status encodes
`task2_childExitCode`. -/
def task2_parentTrace (fresh : Nat → Nat) (myPid : Nat)
    (outcome : String → ExecOutcome) (execExit : String → Nat)
    (commands : List String) : List Event :=
  [ Event.printE "--- Running Task 2: Executing Commands in Children ---",
    Event.printE s!"Parent Process PID: {myPid}" ]
  ++ (commands.enum.map fun ic =>
        [Event.forkE (fresh ic.1),
         Event.waitE (fresh ic.1)
           (waitStatusOfExit (task2_childExitCode (outcome ic.2) (execExit ic.2)))]).flatten
  ++ [ Event.printE "Parent: All commands executed by children." ]

/-! ## Task 3: zombie and orphan demos -/

/-- Trace of the zombie-demo child: it prints and exits immediately with
status 0. -/
def task3_zombie_childTrace (myPid : Nat) : List Event :=
  [ .printE s!"Child ({myPid}): I am alive but will exit immediately.",
    .exitE 0 ]

/-- Parent-side trace of `task3_zombie_process`: fork, four prints, a
30-second sleep with no reaping call issued during it, then the single
`os.wait()` that reaps the child (status 0), then the final print. -/
def task3_zombie_parentTrace (myPid childPid : Nat) : List Event :=
  [ .printE "--- Running Task 3: Simulating a Zombie Process ---",
    .forkE childPid,
    .printE s!"Parent ({myPid}): I created a child ({childPid}) but I will not wait for it.",
    .printE "Parent: I am going to sleep for 30 seconds.",
    .printE ">>> NOW, open a new terminal and run: ps -el | grep Z",
    .printE s!">>> You should see a process with PID {childPid} marked as defunct.",
    .sleepE 30,
    .waitE childPid (waitStatusOfExit 0),
    .printE "Parent: Woke up and reaped the child. The zombie is gone." ]

/-- Trace of the orphan-demo child: it reports its parent id (`ppid0`, the
original parent) immediately, sleeps 5 seconds, reports its parent id again
(`ppid1`, whatever process adopted it), and exits with 0. -/
def task3_orphan_childTrace (myPid ppid0 ppid1 : Nat) : List Event :=
  [ .printPpidE ppid0 s!"Child ({myPid}): My parent is {ppid0}.",
    .printE "Child: My parent is about to die. I will be an orphan.",
    .sleepE 5,
    .printPpidE ppid1 s!"Child ({myPid}): I am an orphan. My new parent is {ppid1}.",
    .printE "Child: I will now exit.",
    .exitE 0 ]

/-- Parent-side trace of `task3_orphan_process`: fork, print, a 1-second
sleep, then `os._exit(0)` — no reaping call anywhere. -/
def task3_orphan_parentTrace (myPid childPid : Nat) : List Event :=
  [ .printE "--- Running Task 3: Simulating an Orphan Process ---",
    .forkE childPid,
    .printE s!"Parent ({myPid}): I am exiting now, leaving my child ({childPid}) as an orphan.",
    .sleepE 1,
    .exitE 0 ]

/-! ## Task 5: `task5_process_prioritization()` and `cpu_bound_task()` -/

/-- `cpu_bound_task`: `count = 0; for _ in range(10**7): count += 1`.
The iteration space is the constant `range(10**7)`; the function takes no
input (in particular no clock), so its work is independent of wall-clock
time and scheduling by construction. -/
def cpu_bound_task : Nat :=
  (List.range (10 ^ 7)).foldl (fun count _ => count + 1) 0

/-- The fixed niceness sequence of the priority demo. -/
def nice_values : List Int := [19, 10, 0]

/-- `os.nice(inc)` semantics: the niceness is incremented by `inc` and
clamped into the scheduler range `[-20, 19]`; the new value is returned. -/
def newNiceness (cur inc : Int) : Int := max (-20) (min 19 (cur + inc))

/-- Trace of the task-5 child for niceness value `v`, spawned with
inherited niceness `n0`: it calls `os.nice(v)`, then prints (each print
calls `os.nice(0)` to read the current value), runs `cpu_bound_task`, and
exits with 0. -/
def task5_childTrace (myPid : Nat) (n0 v : Int) : List Event :=
  [ .niceE v (newNiceness n0 v),
    .niceE 0 (newNiceness (newNiceness n0 v) 0),
    .printE s!"Child (PID {myPid}): Starting CPU-bound task.",
    .cpuE,
    .niceE 0 (newNiceness (newNiceness n0 v) 0),
    .printE s!"--> Child (PID {myPid}): FINISHED.",
    .exitE 0 ]

/-- The task-5 children, in spawn order: one per value of `nice_values`. -/
def task5_children (fresh : Nat → Nat) (n0 : Int) : List (List Event) :=
  nice_values.enum.map fun iv => task5_childTrace (fresh iv.1) n0 iv.2

/-- Parent-side trace of `task5_process_prioritization`: header prints, one
fork per niceness value, then one `os.wait()` per spawned child — any-child
waits, reaping in termination order (`reaped j` is the pid the `j`-th wait
returns, supplied by the kernel oracle). -/
def task5_parentTrace (fresh : Nat → Nat) (reaped : Nat → Nat) : List Event :=
  [ Event.printE "--- Running Task 5: Process Prioritization with nice() ---",
    Event.printE s!"Creating 3 CPU-bound child processes with nice values: {nice_values}",
    Event.printE "The child with the lowest nice value should finish first." ]
  ++ (nice_values.enum.map fun iv => Event.forkE (fresh iv.1))
  ++ ((List.range nice_values.length).map fun j =>
        Event.waitE (reaped j) (waitStatusOfExit 0))
  ++ [ Event.printE "Parent: All prioritized children have completed." ]

/-! ## Task 4: `task4_inspect_proc(pid)`

The function is pure given a snapshot of what `/proc/[pid]` returns at call
time, so we embed it directly.  Each fallible read is an `Except`:
`statusRead` is opening and reading `/proc/[pid]/status`, `exeLink` is
`os.readlink` on `/proc/[pid]/exe`, `fdList` is `os.listdir` on
`/proc/[pid]/fd`, and `fdLink fd` is `os.readlink` on one descriptor entry.
The source wraps the three sections in a single `try` whose
`except Exception` prints one error message; only the per-descriptor
`readlink` has its own inner `try`. -/

/-- Snapshot of the `/proc/[pid]` interface at call time. -/
structure ProcFS where
  isDir : Bool
  statusRead : Except String (List String)
  exeLink : Except String String
  fdList : Except String (List String)
  fdLink : String → Except String String

/-- One line of output of `task4_inspect_proc` that carries information
(section headers elided): the does-not-exist message, a selected status
line, the resolved executable path, the descriptor count, one resolved or
failed descriptor entry, or the single outer-`except` error message. -/
inductive InspectStep where
  | notFoundMsg (pid : Nat)
  | statusLine (l : String)
  | exePath (p : String)
  | fdCount (n : Nat)
  | fdOk (fd target : String)
  | fdErr (fd err : String)
  | topError (err : String)
  deriving Repr, DecidableEq

/-- `str.startswith(pre)` of Python, on the character lists of the
strings. -/
def pyStartsWith (s pre : String) : Bool := pre.data.isPrefixOf s.data

/-- The status-line filter of the source: keep lines starting with one of
`Name:`, `State:`, `Pid:`, `PPid:`, `VmSize:`. -/
def statusLineKept (l : String) : Bool :=
  pyStartsWith l "Name:" || pyStartsWith l "State:" || pyStartsWith l "Pid:" ||
  pyStartsWith l "PPid:" || pyStartsWith l "VmSize:"

/-- One iteration of the descriptor loop: the inner `try` turns a
resolution failure into a per-descriptor error entry. -/
def inspectFdEntry (fs : ProcFS) (fd : String) : InspectStep :=
  match fs.fdLink fd with
  | .ok target => .fdOk fd target
  | .error e => .fdErr fd e

/-- `task4_inspect_proc pid` with `/proc` snapshot `fs`: the guard returns
the does-not-exist message alone; otherwise the single `try` reads the
status lines, the exe link and the descriptor directory in order, and the
first failing section jumps to the outer `except`, which emits one error
message — everything printed before the failure is kept, everything after
is skipped.  Only descriptor-entry resolution failures are handled inside
the loop. -/
def task4_inspect_proc (pid : Nat) (fs : ProcFS) : List InspectStep :=
  if !fs.isDir then [ .notFoundMsg pid ]
  else
    match fs.statusRead with
    | .error e => [ .topError e ]
    | .ok lines =>
      let statusOut := (lines.filter statusLineKept).map InspectStep.statusLine
      match fs.exeLink with
      | .error e => statusOut ++ [ .topError e ]
      | .ok p =>
        match fs.fdList with
        | .error e => statusOut ++ [ .exePath p ] ++ [ .topError e ]
        | .ok fds =>
          statusOut ++ [ .exePath p, .fdCount fds.length ]
            ++ fds.map (inspectFdEntry fs)

/-- The descriptor entries of an inspection output, in order. -/
def fdEntries (out : List InspectStep) : List InspectStep :=
  out.filter fun s => match s with
    | .fdOk _ _ => true
    | .fdErr _ _ => true
    | _ => false

/-- The descriptor name an output step is about, if any. -/
def stepFd : InspectStep → Option String
  | .fdOk fd _ => some fd
  | .fdErr fd _ => some fd
  | _ => none

/-! ## `main()`: argument dispatch

`argparse` yields `args` with optional `--task1 N` (int), `--task2 CMD...`
(non-empty list when present), flags `--zombie`, `--orphan`, `--priority`,
and optional `--inspect PID` (int).  The `if`/`elif` chain tests Python
*truthiness* of each attribute in order: an `int` is truthy iff non-zero, a
list iff non-empty, `None` and `False` are falsy. -/

/-- Parsed arguments of `main`. -/
structure Args where
  task1 : Option Int
  task2 : Option (List String)
  zombie : Bool
  orphan : Bool
  inspect : Option Int
  priority : Bool
  deriving Repr, DecidableEq

/-- What one invocation of `main` dispatches to. -/
inductive Dispatch where
  | runTask1 (n : Int)
  | runTask2 (cmds : List String)
  | runZombie
  | runOrphan
  | runInspect (pid : Int)
  | runPriority
  | usage
  deriving Repr, DecidableEq

/-- Python truthiness of an optional int: present and non-zero. -/
def truthyInt : Option Int → Bool
  | none => false
  | some n => n != 0

/-- Python truthiness of an optional list: present and non-empty. -/
def truthyList : Option (List String) → Bool
  | none => false
  | some l => !l.isEmpty

/-- The `if`/`elif` chain of `main`, testing truthiness in source order;
the final `else` prints the usage guidance and returns normally (the
process exits with status 0). -/
def main_dispatch (a : Args) : Dispatch :=
  if truthyInt a.task1 then .runTask1 (a.task1.getD 0)
  else if truthyList a.task2 then .runTask2 (a.task2.getD [])
  else if a.zombie then .runZombie
  else if a.orphan then .runOrphan
  else if truthyInt a.inspect then .runInspect (a.inspect.getD 0)
  else if a.priority then .runPriority
  else .usage

/-- Whether the invocation supplied at least one task selector. -/
def selectorSupplied (a : Args) : Bool :=
  a.task1.isSome || a.task2.isSome || a.zombie || a.orphan ||
  a.inspect.isSome || a.priority

/-! ## Fixtures used by witnesses and counterexamples -/

/-- A `/proc` snapshot in which the target pid has no record. -/
def fsAbsent : ProcFS :=
  { isDir := false
    statusRead := .ok ["Name:\tbash"]
    exeLink := .ok "/usr/bin/bash"
    fdList := .ok ["0"]
    fdLink := fun _ => .ok "/dev/null" }

/-- A `/proc` snapshot where the middle descriptor of three fails to
resolve while everything else is readable. -/
def fsMidFdFails : ProcFS :=
  { isDir := true
    statusRead := .ok ["Name:\tpython3", "VmSize:\t  14000 kB"]
    exeLink := .ok "/usr/bin/python3"
    fdList := .ok ["0", "1", "2"]
    fdLink := fun fd => if fd = "1" then .error "ENOENT" else .ok "/dev/pts/0" }

/-- A `/proc` snapshot where the status lines and the descriptor listing
are readable but resolving the `exe` link fails. -/
def fsExeFails : ProcFS :=
  { isDir := true
    statusRead := .ok ["Name:\tbash", "State:\tS (sleeping)", "Uid:\t1000"]
    exeLink := .error "PermissionError"
    fdList := .ok ["0"]
    fdLink := fun _ => .ok "/dev/null" }

/-- The parse result of the invocation `--task1 0`. -/
def argsTask1Zero : Args :=
  { task1 := some 0
    task2 := none
    zombie := false
    orphan := false
    inspect := none
    priority := false }

/-- A trace ends detached from the parent when its last event is an
explicit `os._exit` or a successful image replacement: control never falls
off its end back into the code after the fork site. -/
def endsDetached (t : List Event) : Bool :=
  match t.getLast? with
  | some (.exitE _) => true
  | some (.execE _ _) => true
  | _ => false

/-- A trace ends with its execution terminated — by an explicit `os._exit`,
a successful image replacement, or death from an uncaught exception — so
control cannot continue past its last event into the code after the fork
site. -/
def endsTerminated (t : List Event) : Bool :=
  match t.getLast? with
  | some (.exitE _) => true
  | some (.execE _ _) => true
  | some (.excE _) => true
  | _ => false

/-- A trace is confined to leaf work when it forks no process of its own
and issues no reaping call. -/
def childConfined (t : List Event) : Bool :=
  t.all fun e =>
    match e with
    | .forkE _ => false
    | .waitE _ _ => false
    | .waitpidE _ _ => false
    | _ => true

/-! ## Helper lemmas -/

theorem waitpidReports_append (s t : List Event) :
    waitpidReports (s ++ t) = waitpidReports s ++ waitpidReports t := by
  simp [waitpidReports, List.filterMap_append]

theorem forkPids_append (s t : List Event) :
    forkPids (s ++ t) = forkPids s ++ forkPids t := by
  simp [forkPids, List.filterMap_append]

theorem forkCount_append (s t : List Event) :
    forkCount (s ++ t) = forkCount s + forkCount t := by
  simp [forkCount, List.filter_append]

theorem waitCount_append (s t : List Event) :
    waitCount (s ++ t) = waitCount s + waitCount t := by
  simp [waitCount, List.filter_append]

/-- The fork loop of task 1 issues no `os.waitpid`. -/
theorem task1_forkLoop_waitpidReports (fresh : Nat → Nat) (l : List Nat) :
    waitpidReports ((l.map fun i =>
      [Event.forkE (fresh i),
       Event.printE s!"Parent: Created child with PID: {fresh i}"]).flatten) = [] := by
  simp [waitpidReports]

/-- The reports of the waitpid loop of task 1 are its pids, in order, each
with the status of a normal exit with code 0. -/
theorem task1_waitLoop_waitpidReports (l : List Nat) :
    waitpidReports ((l.map fun p =>
      [Event.waitpidE p (waitStatusOfExit 0),
       Event.printE s!"Parent: Child {p} has finished with status 0."]).flatten)
      = l.map fun p => (p, waitStatusOfExit 0) := by
  induction l with
  | nil => rfl
  | cons a t ih =>
      simp [waitpidReports, List.filterMap_cons] at ih ⊢
      exact ih

/-- The fork loop of task 1 forks exactly its pids, in order. -/
theorem task1_forkLoop_forkPids (fresh : Nat → Nat) (l : List Nat) :
    forkPids ((l.map fun i =>
      [Event.forkE (fresh i),
       Event.printE s!"Parent: Created child with PID: {fresh i}"]).flatten)
      = l.map fresh := by
  induction l with
  | nil => rfl
  | cons a t ih =>
      simp [forkPids, List.filterMap_cons] at ih ⊢
      exact ih

/-- The waitpid loop of task 1 issues no fork. -/
theorem task1_waitLoop_forkPids (l : List Nat) :
    forkPids ((l.map fun p =>
      [Event.waitpidE p (waitStatusOfExit 0),
       Event.printE s!"Parent: Child {p} has finished with status 0."]).flatten) = [] := by
  simp [forkPids]

/-- C1. Bulk spawn-and-wait, `task1_create_processes n`, for any pid
assignment `fresh` the kernel makes (injective, as pids of simultaneously
live processes are distinct): the parent records each child pid as it
forks — the recorded list `task1_childPids` equals the forked pids in fork
order — and the waitpid loop then yields exactly `n` termination reports,
one per recorded pid, in spawn order, with pairwise distinct pids each
matching a spawned one.  Spawn order is forced by `os.waitpid(pid, 0)`
naming the specific pid, independently of the order the children actually
terminate in (termination order does not appear in the reports at all). -/
theorem task1_bulk_spawn_wait (fresh : Nat → Nat) (myPid n : Nat)
    (hinj : Function.Injective fresh) :
    (waitpidReports (task1_parentTrace fresh myPid n)).length = n ∧
    (waitpidReports (task1_parentTrace fresh myPid n)).map Prod.fst
      = task1_childPids fresh n ∧
    forkPids (task1_parentTrace fresh myPid n) = task1_childPids fresh n ∧
    ((waitpidReports (task1_parentTrace fresh myPid n)).map Prod.fst).Nodup ∧
    ∀ r ∈ waitpidReports (task1_parentTrace fresh myPid n),
      r.1 ∈ task1_childPids fresh n := by
  have hrep : waitpidReports (task1_parentTrace fresh myPid n)
      = (task1_childPids fresh n).map fun p => (p, waitStatusOfExit 0) := by
    simp only [task1_parentTrace, waitpidReports_append,
      task1_forkLoop_waitpidReports, task1_waitLoop_waitpidReports]
    simp [waitpidReports]
  have hfork : forkPids (task1_parentTrace fresh myPid n)
      = task1_childPids fresh n := by
    simp only [task1_parentTrace, forkPids_append,
      task1_forkLoop_forkPids, task1_waitLoop_forkPids]
    simp [forkPids, task1_childPids]
  have hfst : (waitpidReports (task1_parentTrace fresh myPid n)).map Prod.fst
      = task1_childPids fresh n := by
    rw [hrep]; simp [Function.comp_def]
  refine ⟨?_, hfst, hfork, ?_, ?_⟩
  · rw [hrep]; simp [task1_childPids]
  · rw [hfst]
    exact (List.nodup_range n).map hinj
  · intro r hr
    rw [hrep] at hr
    rcases List.mem_map.mp hr with ⟨p, hp, rfl⟩
    exact hp

/-- Witness for C1 at `fresh i = i + 2` (injective), parent pid 100,
`n = 3`; the recorded pids evaluate to `[2, 3, 4]`. -/
theorem task1_bulk_spawn_wait_witness :
    Function.Injective (fun i => i + 2 : Nat → Nat) ∧
    ((waitpidReports (task1_parentTrace (fun i => i + 2) 100 3)).length = 3 ∧
     (waitpidReports (task1_parentTrace (fun i => i + 2) 100 3)).map Prod.fst
       = task1_childPids (fun i => i + 2) 3 ∧
     forkPids (task1_parentTrace (fun i => i + 2) 100 3)
       = task1_childPids (fun i => i + 2) 3 ∧
     ((waitpidReports (task1_parentTrace (fun i => i + 2) 100 3)).map Prod.fst).Nodup ∧
     ∀ r ∈ waitpidReports (task1_parentTrace (fun i => i + 2) 100 3),
       r.1 ∈ task1_childPids (fun i => i + 2) 3) ∧
    task1_childPids (fun i => i + 2) 3 = [2, 3, 4] :=
  ⟨fun a b h => by simpa using h,
   task1_bulk_spawn_wait (fun i => i + 2) 100 3 (fun a b h => by simpa using h),
   by decide⟩

/-- C6. Zombie demo, `task3_zombie_process`: exactly one child is forked;
the child issues no sleep and exits at time 0 with status 0 (immediately);
and in the parent the only reaping call of the whole run is the single
`os.wait()` stamped at time 30, i.e. issued only once the fixed 30-second
delay window (which starts at time 0, all prints being instantaneous) has
elapsed — no wait is issued during the window. -/
theorem task3_zombie_timeline (myPid childPid : Nat) :
    forkCount (task3_zombie_parentTrace myPid childPid) = 1 ∧
    (stamps (task3_zombie_parentTrace myPid childPid)).filter
        (fun te => te.2.isWait)
      = [(30, Event.waitE childPid (waitStatusOfExit 0))] ∧
    (stamps (task3_zombie_childTrace childPid)).filter
        (fun te => te.2 == Event.exitE 0)
      = [(0, Event.exitE 0)] ∧
    (task3_zombie_childTrace childPid).filter
        (fun e => e.duration != 0) = [] ∧
    (task3_zombie_childTrace childPid).getLast? = some (.exitE 0) := by
  refine ⟨rfl, ?_, ?_, ?_, rfl⟩
  · simp [stamps, stampFrom, task3_zombie_parentTrace, Event.duration, Event.isWait]
  · simp [stamps, stampFrom, task3_zombie_childTrace, Event.duration]
  · simp [task3_zombie_childTrace, Event.duration]

/-- C7. Orphan demo, `task3_orphan_process`: the parent issues no reaping
call at all and its only exit is `os._exit(0)` at time 1 (after its
1-second sleep); the child reports its parent id twice, at times 0 and 5 —
once strictly before the parent exit at time 1 and once strictly after —
and its own exit, with status 0, is at time 5, strictly after the parent
exit, so the parent exits while the child is still running.  (Timing is
the idealised model: sleeps take exactly their nominal duration and
everything else is instantaneous — exactly the discipline the source
comments describe, the 1-second parent sleep existing to order the prints.) -/
theorem task3_orphan_timeline (myPid childPid ppid0 ppid1 : Nat) :
    (task3_orphan_parentTrace myPid childPid).filter Event.isWait = [] ∧
    (stamps (task3_orphan_parentTrace myPid childPid)).filterMap
        (fun te => match te.2 with | .exitE c => some (te.1, c) | _ => none)
      = [(1, 0)] ∧
    (stamps (task3_orphan_childTrace childPid ppid0 ppid1)).filterMap
        (fun te => match te.2 with | .printPpidE p _ => some (te.1, p) | _ => none)
      = [(0, ppid0), (5, ppid1)] ∧
    (stamps (task3_orphan_childTrace childPid ppid0 ppid1)).filterMap
        (fun te => match te.2 with | .exitE c => some (te.1, c) | _ => none)
      = [(5, 0)] ∧
    ((0 : Nat) < 1 ∧ (1 : Nat) < 5) := by
  refine ⟨?_, ?_, ?_, ?_, by decide⟩
  · simp [task3_orphan_parentTrace, Event.isWait]
  · simp [stamps, stampFrom, task3_orphan_parentTrace, Event.duration]
  · simp [stamps, stampFrom, task3_orphan_childTrace, Event.duration]
  · simp [stamps, stampFrom, task3_orphan_childTrace, Event.duration]

/-- C2. Spawn-then-exec, `task2_execute_commands`: for any command of the
batch whose executable does not resolve (`os.execvp` raises
`FileNotFoundError`), the child's `except` catches the failure and the
child terminates itself with `os._exit(1)` — its last event is the exit
with status 1, and no image replacement (and nothing after the exit) ever
happens in it.  The parent's `os.wait()` for that command observes the
wait status 256 = 1 << 8, which is non-zero, and the parent run completes
normally, its last event being the closing print. -/
theorem task2_exec_failure (fresh : Nat → Nat) (myPid childPid : Nat)
    (outcome : String → ExecOutcome) (execExit : String → Nat)
    (commands : List String) (cmd : String)
    (hmem : cmd ∈ commands) (hout : outcome cmd = .notFound) :
    (task2_childTrace childPid cmd (outcome cmd)).getLast? = some (.exitE 1) ∧
    (task2_childTrace childPid cmd (outcome cmd)).all
        (fun e => match e with | .execE _ _ => false | _ => true) = true ∧
    waitStatusOfExit (task2_childExitCode (outcome cmd) (execExit cmd)) = 256 ∧
    (∃ p, Event.waitE p 256
        ∈ task2_parentTrace fresh myPid outcome execExit commands) ∧
    (task2_parentTrace fresh myPid outcome execExit commands).getLast?
      = some (.printE "Parent: All commands executed by children.") := by
  refine ⟨?_, ?_, ?_, ?_, ?_⟩
  · rw [hout]; rfl
  · rw [hout]; rfl
  · rw [hout]; simp [waitStatusOfExit, task2_childExitCode]
  · rcases List.mem_iff_getElem?.mp hmem with ⟨i, hi⟩
    refine ⟨fresh i, ?_⟩
    have henum : (i, cmd) ∈ commands.enum := List.mk_mem_enum_iff_getElem?.mpr hi
    have hblock : [Event.forkE (fresh i), Event.waitE (fresh i)
        (waitStatusOfExit (task2_childExitCode (outcome cmd) (execExit cmd)))]
        ∈ commands.enum.map fun ic =>
          [Event.forkE (fresh ic.1),
           Event.waitE (fresh ic.1)
             (waitStatusOfExit (task2_childExitCode (outcome ic.2) (execExit ic.2)))] :=
      List.mem_map_of_mem _ henum
    have hev : Event.waitE (fresh i) 256
        ∈ (commands.enum.map fun ic =>
            [Event.forkE (fresh ic.1),
             Event.waitE (fresh ic.1)
               (waitStatusOfExit (task2_childExitCode (outcome ic.2) (execExit ic.2)))]).flatten := by
      rw [List.mem_flatten]
      refine ⟨_, hblock, ?_⟩
      rw [hout]
      simp [waitStatusOfExit, task2_childExitCode]
    simp only [task2_parentTrace]
    exact List.mem_append_left _ (List.mem_append_right _ hev)
  · simp only [task2_parentTrace]
    exact List.getLast?_concat _

/-- Witness for C2: the single command `nosuchcmd`, which does not
resolve; pids are `fresh = id`, the parent is 50, the child 51. -/
theorem task2_exec_failure_witness :
    "nosuchcmd" ∈ ["nosuchcmd"] ∧
    (fun _ => ExecOutcome.notFound : String → ExecOutcome) "nosuchcmd" = .notFound ∧
    ((task2_childTrace 51 "nosuchcmd" ((fun _ => ExecOutcome.notFound) "nosuchcmd")).getLast?
        = some (.exitE 1) ∧
     (task2_childTrace 51 "nosuchcmd" ((fun _ => ExecOutcome.notFound) "nosuchcmd")).all
        (fun e => match e with | .execE _ _ => false | _ => true) = true ∧
     waitStatusOfExit (task2_childExitCode ((fun _ => ExecOutcome.notFound) "nosuchcmd")
        ((fun _ => 0) "nosuchcmd")) = 256 ∧
     (∃ p, Event.waitE p 256
        ∈ task2_parentTrace id 50 (fun _ => ExecOutcome.notFound) (fun _ => 0) ["nosuchcmd"]) ∧
     (task2_parentTrace id 50 (fun _ => ExecOutcome.notFound) (fun _ => 0) ["nosuchcmd"]).getLast?
        = some (.printE "Parent: All commands executed by children.")) :=
  ⟨by simp, rfl,
   task2_exec_failure id 50 51 (fun _ => ExecOutcome.notFound) (fun _ => 0)
     ["nosuchcmd"] "nosuchcmd" (by simp) rfl⟩

/-- C3. `task4_inspect_proc` on a pid with no live-introspection record
(`os.path.isdir("/proc/[pid]")` is false): the output is exactly the
does-not-exist message — the function returns right away, reads no status
line, no exe link and no descriptor, and, being a total function of the
snapshot, raises nothing else to its caller, whatever the other fields of
the snapshot would have contained. -/
theorem task4_inspect_not_found (pid : Nat) (fs : ProcFS)
    (h : fs.isDir = false) :
    task4_inspect_proc pid fs = [ .notFoundMsg pid ] := by
  simp [task4_inspect_proc, h]

/-- Witness for C3: the snapshot `fsAbsent` has no record for pid 4242
even though every other field would have been readable. -/
theorem task4_inspect_not_found_witness :
    fsAbsent.isDir = false ∧
    task4_inspect_proc 4242 fsAbsent = [ .notFoundMsg 4242 ] :=
  ⟨rfl, task4_inspect_not_found 4242 fsAbsent rfl⟩

/-- `stepFd` recovers the descriptor of every entry the loop emits. -/
theorem stepFd_inspectFdEntry (fs : ProcFS) (fd : String) :
    stepFd (inspectFdEntry fs fd) = some fd := by
  unfold inspectFdEntry
  cases fs.fdLink fd <;> rfl

/-- Every entry the loop emits is a descriptor entry. -/
theorem inspectFdEntry_isFdEntry (fs : ProcFS) (fd : String) :
    (match inspectFdEntry fs fd with
      | .fdOk _ _ => true
      | .fdErr _ _ => true
      | _ => false) = true := by
  unfold inspectFdEntry
  cases fs.fdLink fd <;> rfl

/-- C4. Descriptor enumeration of `task4_inspect_proc`: once the listing
is reached (status lines, exe link and `fd` directory all readable), the
output contains exactly one entry per listed descriptor, in listing order —
`fdOk` where the link resolves, `fdErr` where resolution fails — so a
failure on one descriptor is recorded as that per-descriptor error and
every descriptor after a failing one is still resolved and reported. -/
theorem task4_fd_failures_independent (pid : Nat) (fs : ProcFS)
    (lines : List String) (p : String) (fds : List String)
    (h0 : fs.isDir = true) (h1 : fs.statusRead = .ok lines)
    (h2 : fs.exeLink = .ok p) (h3 : fs.fdList = .ok fds) :
    fdEntries (task4_inspect_proc pid fs) = fds.map (inspectFdEntry fs) ∧
    (fdEntries (task4_inspect_proc pid fs)).filterMap stepFd = fds := by
  have hout : task4_inspect_proc pid fs
      = (lines.filter statusLineKept).map InspectStep.statusLine
        ++ [ .exePath p, .fdCount fds.length ] ++ fds.map (inspectFdEntry fs) := by
    simp [task4_inspect_proc, h0, h1, h2, h3]
  have hentries : fdEntries (task4_inspect_proc pid fs)
      = fds.map (inspectFdEntry fs) := by
    rw [hout]
    unfold fdEntries
    rw [List.filter_append, List.filter_append]
    have hs : ((lines.filter statusLineKept).map InspectStep.statusLine).filter
        (fun s => match s with
          | .fdOk _ _ => true
          | .fdErr _ _ => true
          | _ => false) = [] := by
      simp
      intro a x _ _ h
      subst h
      rfl
    have hm : (fds.map (inspectFdEntry fs)).filter
        (fun s => match s with
          | .fdOk _ _ => true
          | .fdErr _ _ => true
          | _ => false) = fds.map (inspectFdEntry fs) := by
      rw [List.filter_eq_self]
      intro a ha
      rcases List.mem_map.mp ha with ⟨fd, _, rfl⟩
      exact inspectFdEntry_isFdEntry fs fd
    rw [hs, hm]
    rfl
  refine ⟨hentries, ?_⟩
  rw [hentries, List.filterMap_map]
  have : (stepFd ∘ inspectFdEntry fs) = fun fd => some fd := by
    funext fd
    exact stepFd_inspectFdEntry fs fd
  rw [this]
  simp

/-- Witness for C4 on `fsMidFdFails`: descriptor `1` of `["0", "1", "2"]`
fails to resolve, yet the output still carries one entry per descriptor in
order — and concretely evaluates to `[fdOk "0" _, fdErr "1" _, fdOk "2" _]`,
so descriptor `2`, after the failing one, is still resolved. -/
theorem task4_fd_failures_independent_witness :
    fsMidFdFails.isDir = true ∧
    fsMidFdFails.statusRead = .ok ["Name:\tpython3", "VmSize:\t  14000 kB"] ∧
    fsMidFdFails.exeLink = .ok "/usr/bin/python3" ∧
    fsMidFdFails.fdList = .ok ["0", "1", "2"] ∧
    (fdEntries (task4_inspect_proc 88 fsMidFdFails)
        = ["0", "1", "2"].map (inspectFdEntry fsMidFdFails) ∧
     (fdEntries (task4_inspect_proc 88 fsMidFdFails)).filterMap stepFd
        = ["0", "1", "2"]) ∧
    fdEntries (task4_inspect_proc 88 fsMidFdFails)
      = [ .fdOk "0" "/dev/pts/0", .fdErr "1" "ENOENT", .fdOk "2" "/dev/pts/0" ] :=
  ⟨rfl, rfl, rfl, rfl,
   task4_fd_failures_independent 88 fsMidFdFails
     ["Name:\tpython3", "VmSize:\t  14000 kB"] "/usr/bin/python3"
     ["0", "1", "2"] rfl rfl rfl rfl,
   by rfl⟩

/-- C5 counterexample.  On the snapshot `fsExeFails` the status record and
the descriptor listing are both readable and only resolving the `exe` link
fails, yet the inspection output stops at the single error message of the
outer `except`: the readable descriptor listing (and its one resolvable
descriptor) is *not* yielded — no descriptor entry and no descriptor count
appear — refuting the claim that a failure on one field still yields the
readable remaining fields. -/
theorem task4_partial_snapshot_cex :
    fsExeFails.exeLink = .error "PermissionError" ∧
    fsExeFails.fdList = .ok ["0"] ∧
    fsExeFails.fdLink "0" = .ok "/dev/null" ∧
    task4_inspect_proc 77 fsExeFails
      = [ .statusLine "Name:\tbash", .statusLine "State:\tS (sleeping)",
          .topError "PermissionError" ] ∧
    fdEntries (task4_inspect_proc 77 fsExeFails) = [] ∧
    (task4_inspect_proc 77 fsExeFails).all
        (fun s => match s with | .fdCount _ => false | _ => true) = true := by
  refine ⟨rfl, rfl, rfl, by rfl, by rfl, by rfl⟩

/-- C5 amended.  Failures of `task4_inspect_proc` are *not* surfaced
per-field: the single `try`/`except` makes a failure while resolving the
executable path abort the remaining fields — the output is exactly the
status lines already read followed by one error message, with the
executable path, the descriptor count and every descriptor entry skipped,
however readable they were.  (Only per-descriptor resolution failures,
claim C4, are tolerated without aborting the snapshot.) -/
theorem task4_field_failure_aborts (pid : Nat) (fs : ProcFS)
    (lines : List String) (e : String)
    (h0 : fs.isDir = true) (h1 : fs.statusRead = .ok lines)
    (h2 : fs.exeLink = .error e) :
    task4_inspect_proc pid fs
      = (lines.filter statusLineKept).map InspectStep.statusLine
        ++ [ .topError e ] := by
  simp [task4_inspect_proc, h0, h1, h2]

/-- Witness for the amended C5 on `fsExeFails`. -/
theorem task4_field_failure_aborts_witness :
    fsExeFails.isDir = true ∧
    fsExeFails.statusRead = .ok ["Name:\tbash", "State:\tS (sleeping)", "Uid:\t1000"] ∧
    fsExeFails.exeLink = .error "PermissionError" ∧
    task4_inspect_proc 77 fsExeFails
      = (["Name:\tbash", "State:\tS (sleeping)", "Uid:\t1000"].filter statusLineKept).map
          InspectStep.statusLine
        ++ [ .topError "PermissionError" ] :=
  ⟨rfl, rfl, rfl,
   task4_field_failure_aborts 77 fsExeFails
     ["Name:\tbash", "State:\tS (sleeping)", "Uid:\t1000"] "PermissionError"
     rfl rfl rfl⟩

/-- Counting-up fold: adding 1 per element yields the length. -/
theorem foldl_add_one {α : Type} (l : List α) (c : Nat) :
    l.foldl (fun count _ => count + 1) c = c + l.length := by
  induction l generalizing c with
  | nil => rfl
  | cons a t ih =>
      rw [List.foldl_cons, ih]
      simp [List.length_cons]
      omega

/-- C8. Priority demo, `task5_process_prioritization`, starting from the
default inherited niceness `n0 = 0`: the children are spawned one per
value of the fixed sequence `nice_values = [19, 10, 0]`, in that order,
and the first thing each child does is `os.nice(v)`, setting its niceness
to exactly its value `v`; each child runs the CPU-bound workload exactly
once, and `cpu_bound_task` performs its loop over the constant iteration
space `range(10**7)` — its count is `10^7`, a function of nothing (in
particular not of wall-clock time or scheduling).  The parent forks
exactly `nice_values.length = 3` times and then issues exactly one
any-child `os.wait()` per spawned child, whatever order `reaped` the
kernel delivers terminations in. -/
theorem task5_priority_demo (fresh reaped : Nat → Nat) (n0 : Int)
    (h : n0 = 0) :
    (task5_children fresh n0).map List.head?
      = [some (.niceE 19 19), some (.niceE 10 10), some (.niceE 0 0)] ∧
    (task5_children fresh n0).map
        (fun t => (t.filter (fun e => e == Event.cpuE)).length) = [1, 1, 1] ∧
    (task5_children fresh n0).map List.getLast? =
      [some (.exitE 0), some (.exitE 0), some (.exitE 0)] ∧
    cpu_bound_task = 10 ^ 7 ∧
    forkCount (task5_parentTrace fresh reaped) = nice_values.length ∧
    (task5_parentTrace fresh reaped).filter Event.isWait
      = (List.range nice_values.length).map
          (fun j => Event.waitE (reaped j) (waitStatusOfExit 0)) := by
  subst h
  refine ⟨?_, ?_, ?_, ?_, ?_, ?_⟩
  · rfl
  · rfl
  · rfl
  · rw [cpu_bound_task, foldl_add_one, List.length_range]
    omega
  · rfl
  · rfl

/-- Witness for C8 at inherited niceness 0 and identity pid oracles. -/
theorem task5_priority_demo_witness :
    (0 : Int) = 0 ∧
    ((task5_children id 0).map List.head?
        = [some (.niceE 19 19), some (.niceE 10 10), some (.niceE 0 0)] ∧
     (task5_children id 0).map
        (fun t => (t.filter (fun e => e == Event.cpuE)).length) = [1, 1, 1] ∧
     (task5_children id 0).map List.getLast? =
        [some (.exitE 0), some (.exitE 0), some (.exitE 0)] ∧
     cpu_bound_task = 10 ^ 7 ∧
     forkCount (task5_parentTrace id id) = nice_values.length ∧
     (task5_parentTrace id id).filter Event.isWait
        = (List.range nice_values.length).map
            (fun j => Event.waitE (id j) (waitStatusOfExit 0))) :=
  ⟨rfl, task5_priority_demo id id 0 rfl⟩

/-- C9, evaluated at the failing input.  The invocation `--task1 0`
supplies a task selector (`args.task1` is present), and `0` is a valid
child count for the bulk-spawn operation (the spec admits every N ≥ 0);
yet `main`'s truthiness test `if args.task1:` is false at `0`, so the
dispatch falls through every branch and prints the usage guidance instead
of honoring the selector — refuting "for every invocation that supplies at
least one selector, exactly one selector is honored".  (The chain does
dispatch at most one selector, and with no selector at all it prints usage
and returns normally, as claimed.) -/
theorem main_dispatch_task1_zero_bug :
    selectorSupplied argsTask1Zero = true ∧
    main_dispatch argsTask1Zero = .usage ∧
    main_dispatch { argsTask1Zero with task1 := some 1 } = .runTask1 1 := by
  refine ⟨rfl, rfl, rfl⟩

/-- Per-block fork counts: the forks of a flattened map whose blocks each
contain `c` forks number `c` per element. -/
theorem forkCount_flatten_const {α : Type} (f : α → List Event) (c : Nat)
    (h : ∀ a, forkCount (f a) = c) (l : List α) :
    forkCount ((l.map f).flatten) = c * l.length := by
  induction l with
  | nil => simp [forkCount]
  | cons a t ih =>
      rw [List.map_cons, List.flatten_cons, forkCount_append, h, ih,
        List.length_cons]
      ring

/-- C10 counterexample.  The universal claim "every child execution path
terminates via an explicit process exit or a successful image replacement"
fails on the task-2 child at a concrete input: for the command
`/etc/hosts`, `os.execvp` resolves the file but it is not executable and
raises `PermissionError`, which `except FileNotFoundError` does not catch
— the child dies from the uncaught exception (interpreter traceback, exit
status 1), its last event being `excE "PermissionError"`, neither an
`os._exit` nor an image replacement, so `endsDetached` is false.  (The
same path is reached by `IndexError` from `cmd_args[0]` on an empty
command string.)  The child is nonetheless still confined: it forks
nothing and waits on nothing. -/
theorem task2_child_uncaught_cex :
    task2_childTrace 51 "/etc/hosts" (.uncaught "PermissionError")
      = [ .printE "Child 51: Executing /etc/hosts...",
          .excE "PermissionError" ] ∧
    (task2_childTrace 51 "/etc/hosts" (.uncaught "PermissionError")).getLast?
      = some (.excE "PermissionError") ∧
    endsDetached (task2_childTrace 51 "/etc/hosts" (.uncaught "PermissionError"))
      = false ∧
    childConfined (task2_childTrace 51 "/etc/hosts" (.uncaught "PermissionError"))
      = true :=
  ⟨rfl, rfl, rfl, rfl⟩

/-- C10 as amended.  In every scenario every child execution path
terminates — its last event ends the execution, so control never returns
into the parent's spawning or waiting loop — and each child is confined:
it forks no process and issues no reaping call, so a run that spawns N
children creates exactly N child processes and only the original parent
executes the wait calls (the parents fork exactly once per child: `n`
times in task 1, once per command in task 2, once in each task-3 demo,
`nice_values.length` times in task 5).  The termination is an explicit
`os._exit` in tasks 1, 3 and 5; in task 2 it is an explicit exit or a
successful image replacement only when the exec succeeds or fails with
the caught `FileNotFoundError` — on any other exception of the `try` body
the child instead dies from that uncaught exception, its last event being
`excE`. -/
theorem children_never_return :
    (∀ i myPid ppid, endsDetached (task1_childTrace i myPid ppid) = true
        ∧ childConfined (task1_childTrace i myPid ppid) = true) ∧
    (∀ myPid cmd out, endsTerminated (task2_childTrace myPid cmd out) = true
        ∧ childConfined (task2_childTrace myPid cmd out) = true) ∧
    (∀ myPid cmd, endsDetached (task2_childTrace myPid cmd .success) = true) ∧
    (∀ myPid cmd, endsDetached (task2_childTrace myPid cmd .notFound) = true) ∧
    (∀ myPid cmd exc,
        (task2_childTrace myPid cmd (.uncaught exc)).getLast?
          = some (.excE exc)) ∧
    (∀ myPid, endsDetached (task3_zombie_childTrace myPid) = true
        ∧ childConfined (task3_zombie_childTrace myPid) = true) ∧
    (∀ myPid ppid0 ppid1,
        endsDetached (task3_orphan_childTrace myPid ppid0 ppid1) = true
        ∧ childConfined (task3_orphan_childTrace myPid ppid0 ppid1) = true) ∧
    (∀ myPid n0 v, endsDetached (task5_childTrace myPid n0 v) = true
        ∧ childConfined (task5_childTrace myPid n0 v) = true) ∧
    (∀ fresh myPid n, forkCount (task1_parentTrace fresh myPid n) = n) ∧
    (∀ fresh myPid outcome execExit commands,
        forkCount (task2_parentTrace fresh myPid outcome execExit commands)
          = commands.length) ∧
    (∀ myPid childPid, forkCount (task3_zombie_parentTrace myPid childPid) = 1) ∧
    (∀ myPid childPid, forkCount (task3_orphan_parentTrace myPid childPid) = 1) ∧
    (∀ fresh reaped, forkCount (task5_parentTrace fresh reaped)
        = nice_values.length) := by
  refine ⟨fun i myPid ppid => ⟨rfl, rfl⟩,
          fun myPid cmd out => ?_,
          fun myPid cmd => rfl,
          fun myPid cmd => rfl,
          fun myPid cmd exc => rfl,
          fun myPid => ⟨rfl, rfl⟩,
          fun myPid ppid0 ppid1 => ⟨rfl, rfl⟩,
          fun myPid n0 v => ⟨rfl, rfl⟩,
          fun fresh myPid n => ?_,
          fun fresh myPid outcome execExit commands => ?_,
          fun myPid childPid => rfl,
          fun myPid childPid => rfl,
          fun fresh reaped => rfl⟩
  · cases out <;> exact ⟨rfl, rfl⟩
  · have h1 := forkCount_flatten_const
      (fun i => [Event.forkE (fresh i),
        Event.printE s!"Parent: Created child with PID: {fresh i}"])
      1 (fun _ => rfl) (List.range n)
    have h2 := forkCount_flatten_const
      (fun p => [Event.waitpidE p (waitStatusOfExit 0),
        Event.printE s!"Parent: Child {p} has finished with status 0."])
      0 (fun _ => rfl) (task1_childPids fresh n)
    rw [task1_parentTrace, forkCount_append, forkCount_append, forkCount_append,
      h1, h2]
    simp [forkCount, Event.isFork, List.length_range]
  · have h1 := forkCount_flatten_const
      (fun ic : Nat × String => [Event.forkE (fresh ic.1),
        Event.waitE (fresh ic.1)
          (waitStatusOfExit (task2_childExitCode (outcome ic.2) (execExit ic.2)))])
      1 (fun _ => rfl) commands.enum
    rw [task2_parentTrace, forkCount_append, forkCount_append, h1]
    simp [forkCount, Event.isFork, List.enum_length]

end ProcessManagement
